import Mathlib

/-!
Verification of the SKLL multi-format reader subsystem
(`skll/data/readers.py`) against its natural-language specification.

The Python code is shallowly embedded: pure helpers become Lean
functions, raising code returns `Except PyErr`, Python `dict`s become
insertion-ordered association lists, and Python `float` values are
modelled as `Rat` (every numeric literal exercised by the claims is an
exact decimal, so no rounding behaviour is relied upon).  The two
external pandas entry points (`pd.read_csv` / `pd.read_json`) are
treated as producing a `DataFrame` value which is taken as input here;
the vectorizer is modelled at its interface (one output row per input
feature mapping), exactly as the specification scopes it.
-/

set_option synthInstance.maxSize 2048

instance exceptDecEq {ε α : Type} [DecidableEq ε] [DecidableEq α] :
    DecidableEq (Except ε α) := fun x y =>
  match x, y with
  | .error a, .error b =>
    if h : a = b then isTrue (by rw [h]) else isFalse (by simp [h])
  | .error _, .ok _ => isFalse (by simp)
  | .ok _, .error _ => isFalse (by simp)
  | .ok a, .ok b =>
    if h : a = b then isTrue (by rw [h]) else isFalse (by simp [h])

/-- Python exception values raised by the reader subsystem. -/
inductive PyErr where
  | valueError (msg : String)
  | typeError (msg : String)
  | keyError (key : String)
  | nameError (name : String)
  | assertionError
  deriving DecidableEq, Repr

/-- Result values of `safe_float`: Python `int`, `float` or `str`.
Python floats are modelled as rationals. -/
inductive SVal where
  | int (n : Int)
  | float (q : Rat)
  | str (s : String)
  deriving DecidableEq, Repr

/-- Python values that can appear as `safe_float` inputs or as table
cells: `None`, `bool`, `int`, `float`, `str`.  (Containers are not
needed by any claim.) -/
inductive PyVal where
  | none
  | bool (b : Bool)
  | int (n : Int)
  | float (q : Rat)
  | str (s : String)
  deriving DecidableEq, Repr

abbrev StrMap := List (String × String)

/-- Python `str.strip()` (whitespace classes approximated by
`Char.isWhitespace`; claims only exercise ASCII whitespace). -/
def pyStrip (s : String) : String :=
  String.mk (((s.toList.dropWhile Char.isWhitespace).reverse.dropWhile
    Char.isWhitespace).reverse)

def splitWsAcc : List Char → List Char → List String
  | [], cur => if cur.isEmpty then [] else [String.mk cur.reverse]
  | c :: cs, cur =>
    if c.isWhitespace then
      if cur.isEmpty then splitWsAcc cs []
      else String.mk cur.reverse :: splitWsAcc cs []
    else splitWsAcc cs (c :: cur)

/-- Python `str.split()` with no argument: split on whitespace runs,
no empty fields. -/
def pySplitWs (s : String) : List String :=
  splitWsAcc s.toList []

def splitOnCharAcc (sep : Char) : List Char → List Char → List String
  | [], cur => [String.mk cur.reverse]
  | c :: cs, cur =>
    if c = sep then String.mk cur.reverse :: splitOnCharAcc sep cs []
    else splitOnCharAcc sep cs (c :: cur)

/-- Python `str.split(sep)` for a one-character separator (the only
kind the readers use): all fields, empties included. -/
def splitOnChar (sep : Char) (s : String) : List String :=
  splitOnCharAcc sep s.toList []

def asciiLower (c : Char) : Char :=
  if 'A' ≤ c ∧ c ≤ 'Z' then Char.ofNat (c.toNat + 32) else c

/-- Python `str.lower()` (ASCII; no claim uses non-ASCII letters in a
path). -/
def pyLower (s : String) : String :=
  String.mk (s.toList.map asciiLower)

def padZeros (s : String) (k : Nat) : String :=
  String.mk (List.replicate (k - s.length) '0') ++ s

/-- Text form of a Python float whose value is an exact decimal
(the only floats producible in this model).  Shortest-round-trip
rendering of non-decimal doubles is not modelled. -/
def ratDecimalRepr (q : Rat) : String :=
  match (List.range 40).find? (fun k => 10 ^ k % q.den == 0) with
  | some 0 => toString q.num ++ ".0"
  | some k =>
    let sgn := if q.num < 0 then "-" else ""
    let m := q.num.natAbs * 10 ^ k / q.den
    sgn ++ toString (m / 10 ^ k) ++ "." ++ padZeros (toString (m % 10 ^ k)) k
  | Option.none => toString q.num ++ "/" ++ toString q.den

/-- Python `str(x)` / six `text_type(x)` on the modelled values. -/
def pyStr : PyVal → String
  | .none => "None"
  | .bool b => cond b "True" "False"
  | .int n => toString n
  | .float q => ratDecimalRepr q
  | .str s => s

def parseDigits (cs : List Char) : Option Nat :=
  if cs ≠ [] ∧ cs.all Char.isDigit then
    some (cs.foldl (fun a c => a * 10 + (c.toNat - 48)) 0)
  else
    Option.none

/-- Python `int(s)` on a string: optional sign then decimal digits,
surrounding whitespace stripped.  (Underscore separators and non-ASCII
digits are not modelled.)  `none` models `ValueError`. -/
def pyIntOfString (s : String) : Option Int :=
  match (pyStrip s).toList with
  | '+' :: cs => (parseDigits cs).map Int.ofNat
  | '-' :: cs => (parseDigits cs).map (fun n => -(n : Int))
  | cs => (parseDigits cs).map Int.ofNat

def digitsVal (cs : List Char) : Nat :=
  cs.foldl (fun a c => a * 10 + (c.toNat - 48)) 0

/-- Unsigned part of Python `float(s)`: `digits[.digits][(e|E)[±]digits]`
or `.digits[...]`, returned as a numerator/denominator pair of
naturals.  The `inf`/`nan` spellings are not modelled (no claim
touches them). -/
def parseUnsignedFloat (cs : List Char) : Option (Nat × Nat) :=
  let ip := cs.takeWhile Char.isDigit
  let r1 := cs.dropWhile Char.isDigit
  let (fp, r2) :=
    match r1 with
    | '.' :: rest => (rest.takeWhile Char.isDigit, rest.dropWhile Char.isDigit)
    | _ => ([], r1)
  -- when r1 does not start with '.', no fractional part was consumed
  if ip = [] ∧ fp = [] then Option.none
  else
    let mant := digitsVal (ip ++ fp)
    let k := fp.length
    match r2 with
    | [] => some (mant, 10 ^ k)
    | e :: rest =>
      if e = 'e' ∨ e = 'E' then
        let (eneg, ds) :=
          match rest with
          | '+' :: ds => (false, ds)
          | '-' :: ds => (true, ds)
          | ds => (false, ds)
        match parseDigits ds with
        | some ex =>
          if eneg then some (mant, 10 ^ (k + ex))
          else some (mant * 10 ^ ex, 10 ^ k)
        | Option.none => Option.none
      else Option.none

/-- Python `float(s)` on a string; `none` models `ValueError`. -/
def pyFloatOfString (s : String) : Option Rat :=
  match (pyStrip s).toList with
  | '+' :: cs => (parseUnsignedFloat cs).map (fun p => mkRat p.1 p.2)
  | '-' :: cs => (parseUnsignedFloat cs).map (fun p => mkRat (-(p.1 : Int)) p.2)
  | cs => (parseUnsignedFloat cs).map (fun p => mkRat p.1 p.2)

/-- The int-then-float-then-text coercion at the heart of
`safe_float` (readers.py lines 1002–1008), specialised to the string
produced by the initial `text_type(text)` conversion. -/
def coerceText (t : String) : SVal :=
  match pyIntOfString t with
  | some n => .int n
  | Option.none =>
    match pyFloatOfString t with
    | some q => .float q
    | Option.none => .str t

/-- `safe_float` (readers.py lines 962–1012) as the total value
function: stringify, apply the replacement dictionary, then coerce.
`safe_floatE` below mirrors the source try/except structure and is
proved equal to `.ok` of this function. -/
def safe_floatCore (v : PyVal) (replace_dict : Option StrMap) : SVal :=
  let text := pyStr v
  let text :=
    match replace_dict with
    | some d =>
      match d.lookup text with
      | some r => r
      | Option.none => text
    | Option.none => text
  coerceText text

/-- Whether `safe_float` emits its warning diagnostic: a replacement
dictionary was supplied and the stringified input is not one of its
keys (readers.py lines 996–1001). -/
def safe_float_warns (v : PyVal) (replace_dict : Option StrMap) : Bool :=
  match replace_dict with
  | some d => ((d.lookup (pyStr v)).isNone)
  | Option.none => false

/-- Python `int(x)`: `ValueError` on an unparsable string,
`TypeError` on `None`. -/
def pyIntE : PyVal → Except PyErr Int
  | .str s =>
    match pyIntOfString s with
    | some n => .ok n
    | Option.none => .error (.valueError ("invalid literal for int() with base 10: " ++ s))
  | .int n => .ok n
  | .bool b => .ok (cond b 1 0)
  | .float q => .ok (q.num / (q.den : Int))
  | .none => .error (.typeError "int() argument must be a string, a bytes-like object or a number, not NoneType")

/-- Python `float(x)`: `ValueError` on an unparsable string,
`TypeError` on `None`. -/
def pyFloatE : PyVal → Except PyErr Rat
  | .str s =>
    match pyFloatOfString s with
    | some q => .ok q
    | Option.none => .error (.valueError ("could not convert string to float: " ++ s))
  | .int n => .ok (n : Rat)
  | .bool b => .ok (cond b 1 0)
  | .float q => .ok q
  | .none => .error (.typeError "float() argument must be a string or a number, not NoneType")

/-- `safe_float` with the source try/except structure made explicit
(readers.py lines 962–1012): the input is stringified first
("convert to text to be Safe!"), the replacement dictionary applied,
then `int`, then `float`; `ValueError` falls through, `TypeError`
returns the zero literals, unhandled exceptions propagate. -/
def safe_floatE (v : PyVal) (replace_dict : Option StrMap) : Except PyErr SVal :=
  let text := pyStr v
  let text :=
    match replace_dict with
    | some d =>
      match d.lookup text with
      | some r => r
      | Option.none => text
    | Option.none => text
  match pyIntE (.str text) with
  | .ok n => .ok (.int n)
  | .error (.valueError _) =>
    match pyFloatE (.str text) with
    | .ok q => .ok (.float q)
    | .error (.valueError _) => .ok (.str text)
    | .error (.typeError _) => .ok (.float 0)
    | .error e => .error e
  | .error (.typeError _) => .ok (.int 0)
  | .error e => .error e


/-- `List.mapM` into `Except`, written with explicit structural
recursion (mirrors a Python `for` loop that may raise). -/
def mapME {α β : Type} (f : α → Except PyErr β) : List α → Except PyErr (List β)
  | [] => .ok []
  | x :: xs =>
    match f x with
    | .error e => .error e
    | .ok y =>
      match mapME f xs with
      | .error e => .error e
      | .ok ys => .ok (y :: ys)

/-- Python `dict` insertion on an insertion-ordered association list:
a later binding for an existing key overwrites in place. -/
def dictInsert {α : Type} (m : List (String × α)) (k : String) (v : α) :
    List (String × α) :=
  if (m.lookup k).isSome then
    m.map (fun p => if p.1 = k then (k, v) else p)
  else
    m ++ [(k, v)]

def buildDict {α : Type} (l : List (String × α)) : List (String × α) :=
  l.foldl (fun d p => dictInsert d p.1 p.2) []

/-- The `Reader` subclasses (readers.py `EXT_TO_READER`, lines
1016–1022, plus `DictListReader`). -/
inductive ReaderKind where
  | dictList
  | ndj
  | megam
  | libsvm
  | csv
  | tsv
  | arff
  deriving DecidableEq, Repr

/-- `Reader.__init__` keyword options (readers.py lines 110–128) with
their default values. -/
structure ReaderConfig where
  quiet : Bool := true
  ids_to_floats : Bool := false
  label_col : Option String := some "y"
  id_col : Option String := some "id"
  class_map : Option StrMap := Option.none
  sparse : Bool := true
  feature_hasher : Bool := false
  num_features : Option Nat := Option.none
  deriving DecidableEq, Repr

structure ReaderInst where
  kind : ReaderKind
  config : ReaderConfig
  deriving DecidableEq, Repr

/-- An in-memory example dictionary with the optional `id`, `y`, `x`
keys consumed by `DictListReader`. -/
structure Record where
  idVal : Option PyVal := Option.none
  yVal : Option PyVal := Option.none
  xVal : Option (List (String × PyVal)) := Option.none

inductive PathOrList where
  | path (p : String)
  | list (l : List Record)

/-- Python `s.rsplit(c, 1)[-1]`: the text after the last occurrence of
`c`, or all of `s` when `c` is absent. -/
def rsplitLast (c : Char) (s : String) : String :=
  String.mk ((s.toList.reverse.takeWhile (fun x => x ≠ c)).reverse)

def listHasInfix (needle : List Char) : List Char → Bool
  | [] => needle.isEmpty
  | c :: cs => needle.isPrefixOf (c :: cs) || listHasInfix needle cs

def strContains (hay needle : String) : Bool :=
  listHasInfix needle.toList hay.toList

/-- `EXT_TO_READER` (readers.py lines 1016–1022). -/
def EXT_TO_READER : List (String × ReaderKind) :=
  [(".arff", .arff), (".csv", .csv), (".jsonlines", .ndj), (".libsvm", .libsvm),
   (".megam", .megam), (".ndj", .ndj), (".tsv", .tsv)]

/-- `Reader.for_path` (readers.py lines 130–165): a list input gets a
`DictListReader` built with no keyword arguments (so default
configuration); a path input is dispatched on its lowercase extension
through `EXT_TO_READER`, any other extension raising `ValueError`. -/
def for_path (src : PathOrList) (kwargs : ReaderConfig) : Except PyErr ReaderInst :=
  match src with
  | .list _ => .ok ⟨.dictList, {}⟩
  | .path p =>
    let ext := "." ++ pyLower (rsplitLast '.' p)
    match EXT_TO_READER.lookup ext with
    | some k => .ok ⟨k, kwargs⟩
    | Option.none =>
      .error (.valueError ("Example files must be in either .arff, .csv, .jsonlines, .megam, .ndj, or .tsv format. You specified: " ++ p))

/-- A parsed pandas data frame: named columns over a rectangular list
of rows.  (`pd.read_csv` / `pd.read_json` themselves are external
I/O; readers receive their output.) -/
structure DataFrame where
  cols : List String
  rows : List (List PyVal)

def DataFrame.colIdx (df : DataFrame) (c : String) : Option Nat :=
  df.cols.findIdx? (fun x => x = c)

/-- Python `c in df`. -/
def DataFrame.hasCol (df : DataFrame) (c : String) : Bool :=
  (df.colIdx c).isSome

def DataFrame.col (df : DataFrame) (c : String) : List PyVal :=
  match df.colIdx c with
  | some i => df.rows.map (fun r => r.getD i .none)
  | Option.none => []

/-- Python `del df[c]`. -/
def DataFrame.dropCol (df : DataFrame) (c : String) : DataFrame :=
  match df.colIdx c with
  | some i => ⟨df.cols.eraseIdx i, df.rows.map (fun r => r.eraseIdx i)⟩
  | Option.none => df

/-- Python `df.empty`. -/
def DataFrame.isEmpty (df : DataFrame) : Bool :=
  df.rows.isEmpty || df.cols.isEmpty

/-- Python `df.to_dict(orient='records')`. -/
def DataFrame.records (df : DataFrame) : List (List (String × PyVal)) :=
  df.rows.map (fun r => df.cols.zip r)

/-- pandas `Series.astype(float)` on one cell (numeric strings parse,
other strings raise `ValueError`; `None`/NaN cells are not modelled —
no claim produces them on this path). -/
def pandasAstypeFloat (v : PyVal) : Except PyErr Rat :=
  match v with
  | .str s =>
    match pyFloatOfString s with
    | some q => .ok q
    | Option.none => .error (.valueError ("could not convert string to float: " ++ s))
  | .int n => .ok (n : Rat)
  | .float q => .ok q
  | .bool b => .ok (cond b 1 0)
  | .none => .error (.valueError "could not convert NoneType to float")

def syntheticIds (n : Nat) : List PyVal :=
  (List.range n).map (fun i => PyVal.str ("EXAMPLE_" ++ toString i))

abbrev FeatRow := List (String × PyVal)

/-- The id-extraction step of `Reader._parse_dataframe`
(readers.py lines 326–340). -/
def extractIds (ids_to_floats : Bool) (df : DataFrame) (id_col : Option String) :
    Except PyErr (DataFrame × List PyVal) :=
  match id_col with
  | some c =>
    if df.hasCol c then
      let idvals := df.col c
      let df1 := df.dropCol c
      if ids_to_floats then
        match mapME pandasAstypeFloat idvals with
        | .error e => .error e
        | .ok fl => .ok (df1, fl.map PyVal.float)
      else .ok (df1, idvals)
    else .ok (df, syntheticIds df.rows.length)
  | Option.none => .ok (df, syntheticIds df.rows.length)

/-- The label-extraction step of `Reader._parse_dataframe`
(readers.py lines 342–360): present labels go through `safe_float`
(with the class map when configured), an absent column yields `None`
labels. -/
def extractLabels (class_map : Option StrMap) (df : DataFrame)
    (label_col : Option String) : DataFrame × List (Option SVal) :=
  match label_col with
  | some c =>
    if df.hasCol c then
      (df.dropCol c, (df.col c).map (fun v => some (safe_floatCore v class_map)))
    else (df, List.replicate df.rows.length Option.none)
  | Option.none => (df, List.replicate df.rows.length Option.none)

/-- `Reader._parse_dataframe` (readers.py lines 290–368). -/
def parseDataframe (path : String) (ids_to_floats : Bool)
    (class_map : Option StrMap) (df : DataFrame)
    (id_col label_col : Option String) (features : Option (List FeatRow)) :
    Except PyErr (List PyVal × List (Option SVal) × List FeatRow) :=
  if df.isEmpty then
    .error (.valueError ("No features found in possibly empty file \x27" ++ path ++ "\x27."))
  else
    match extractIds ids_to_floats df id_col with
    | .error e => .error e
    | .ok (df1, ids) =>
      let el := extractLabels class_map df1 label_col
      .ok (ids, el.2, features.getD el.1.records)

/-- `CSVReader._sub_read` / `TSVReader._sub_read` (readers.py lines
779–796): the delimited file is read into one table (external I/O,
received here as `df`) and handed to `_parse_dataframe` with the
configured id and label columns. -/
def csvSubRead (path : String) (cfg : ReaderConfig) (df : DataFrame) :
    Except PyErr (List PyVal × List (Option SVal) × List FeatRow) :=
  parseDataframe path cfg.ids_to_floats cfg.class_map df cfg.id_col cfg.label_col Option.none

/-- `DictListReader._sub_read` (readers.py lines 443–473): the record
list becomes a data frame; an empty frame routes through
`_parse_dataframe`'s empty-table error; otherwise the `x` column is
passed as the pre-extracted feature list and ids/labels come from the
`id`/`y` columns when present. -/
def dictListSubRead (path : String) (cfg : ReaderConfig) (l : List Record) :
    Except PyErr (List PyVal × List (Option SVal) × List FeatRow) :=
  let hasId := l.any (fun r => r.idVal.isSome)
  let hasY := l.any (fun r => r.yVal.isSome)
  let hasX := l.any (fun r => r.xVal.isSome)
  let df : DataFrame :=
    ⟨(cond hasId ["id"] []) ++ (cond hasY ["y"] []) ++ (cond hasX ["x"] []),
     l.map (fun r => (cond hasId [r.idVal.getD .none] []) ++ (cond hasY [r.yVal.getD .none] []))⟩
  if df.isEmpty then
    parseDataframe path cfg.ids_to_floats cfg.class_map df Option.none Option.none Option.none
  else
    match (if hasX then .ok (l.map (fun r => r.xVal.getD [])) else .error (.keyError "x") :
        Except PyErr (List FeatRow)) with
    | .error e => .error e
    | .ok features =>
      parseDataframe path cfg.ids_to_floats cfg.class_map df
        (if hasId then some "id" else Option.none)
        (if hasY then some "y" else Option.none)
        (some features)

def everyOther {α : Type} : List α → List α
  | [] => []
  | [x] => [x]
  | x :: _ :: rest => x :: everyOther rest

/-- `islice(l, 0, None, 2)`: elements at even indices. -/
def evens {α : Type} (l : List α) : List α := everyOther l

/-- `islice(l, 1, None, 2)`: elements at odd indices. -/
def odds {α : Type} (l : List α) : List α := everyOther l.tail

/-- The token-count branch of `MegaMReader._sub_read`
(readers.py lines 589–602): one token is a bare label; an odd count
greater than one is a label followed by feature/value pairs; an even
count is unlabelled feature/value pairs. -/
def megamParseTokens (class_map : Option StrMap) (split_line : List String) :
    Option SVal × List String :=
  if split_line.length = 1 then
    (some (safe_floatCore (.str (split_line.headD "")) class_map), [])
  else if split_line.length % 2 = 1 then
    (some (safe_floatCore (.str (split_line.headD "")) class_map), split_line.tail)
  else
    (Option.none, split_line)

/-- State carried across lines by `MegaMReader._sub_read`: the example
counter and the identifier for the next data line. -/
structure MegamState where
  example_num : Nat
  curr_id : String
  deriving DecidableEq, Repr

abbrev MegamTriple := String × Option SVal × List (String × SVal)

/-- One line of `MegaMReader._sub_read` (readers.py lines 576–627):
`#` comments set the next identifier, blank and `TRAIN`/`TEST`/`DEV`
lines are skipped, any other line is tokenized and parsed, with a
fatal error on duplicate feature names within the instance. -/
def megamLine (class_map : Option StrMap) (path : String) (st : MegamState)
    (line : String) : Except PyErr (MegamState × Option MegamTriple) :=
  let line := pyStrip line
  if (match line.toList with | c :: _ => c = '#' | [] => false : Bool) then
    .ok (⟨st.example_num, pyStrip (String.mk (line.toList.drop 1))⟩, Option.none)
  else if line ≠ "" ∧ line ∉ ["TRAIN", "TEST", "DEV"] then
    let split_line := pySplitWs line
    let (class_name, field_pairs) := megamParseTokens class_map split_line
    let field_names := evens field_pairs
    let field_values := (odds field_pairs).map (fun v => safe_floatCore (.str v) Option.none)
    let curr_info_dict := buildDict (field_names.zip field_values)
    if field_pairs.length > 0 ∧ curr_info_dict.length ≠ field_pairs.length / 2 then
      .error (.valueError ("There are duplicate feature names in " ++ path ++
        " for example " ++ st.curr_id ++ "."))
    else
      .ok (⟨st.example_num + 1, "EXAMPLE_" ++ toString (st.example_num + 1)⟩,
        some (st.curr_id, class_name, curr_info_dict))
  else
    .ok (st, Option.none)

def megamGo (class_map : Option StrMap) (path : String) :
    MegamState → List String → Except PyErr (List MegamTriple)
  | _, [] => .ok []
  | st, l :: ls =>
    match megamLine class_map path st l with
    | .error e => .error e
    | .ok (st1, out) =>
      match megamGo class_map path st1 ls with
      | .error e => .error e
      | .ok rest =>
        .ok (match out with
          | some t => t :: rest
          | Option.none => rest)

/-- `MegaMReader._sub_read` (readers.py lines 552–627) over the lines
of the file, starting with identifier `EXAMPLE_0` and counter 0. -/
def megamSubRead (class_map : Option StrMap) (path : String)
    (lines : List String) : Except PyErr (List MegamTriple) :=
  megamGo class_map path ⟨0, "EXAMPLE_0"⟩ lines

/-- Split a character list at the first occurrence of `c`
(occurrence excluded); `none` when `c` is absent. -/
def splitAtFirst (c : Char) : List Char → Option (List Char × List Char)
  | [] => Option.none
  | x :: xs =>
    if x = c then some ([], xs)
    else (splitAtFirst c xs).map (fun p => (x :: p.1, p.2))

/-- The capture groups of `LibSVMReader.line_regex`
(readers.py lines 643–646). -/
structure LibSVMMatch where
  label_num : String
  features : String
  comment : Option (String × String × String)
  deriving DecidableEq, Repr

/-- `LibSVMReader.line_regex` applied to a stripped line: the label
token runs to the first space, the feature section to the `#`; a
present comment must carry an example-id segment and a label-map
segment separated by pipes (the regex requires both nonempty) and the
rest is the feature-map segment.  Leading whitespace consumed by the
regex `\s*` gaps is removed from each captured group.  (Regex
backtracking over tab-separated label tokens is not modelled; claims
use space-separated lines.) -/
def libsvmRegex (line : String) : Option LibSVMMatch :=
  match splitAtFirst ' ' line.toList with
  | Option.none => Option.none
  | some (lab, rest0) =>
    if lab.isEmpty then Option.none
    else
      let rest := rest0.dropWhile Char.isWhitespace
      match splitAtFirst '#' rest with
      | Option.none => some ⟨String.mk lab, String.mk rest, Option.none⟩
      | some (featPart, afterHash) =>
        match splitAtFirst '|' afterHash with
        | Option.none => Option.none
        | some (idSeg, afterP1) =>
          if idSeg.isEmpty then Option.none
          else
            match splitAtFirst '|' afterP1 with
            | Option.none => Option.none
            | some (lmSeg, afterP2) =>
              if lmSeg.isEmpty then Option.none
              else
                some ⟨String.mk lab, String.mk featPart,
                  some (String.mk (idSeg.dropWhile Char.isWhitespace),
                        String.mk (lmSeg.dropWhile Char.isWhitespace),
                        String.mk (afterP2.dropWhile Char.isWhitespace))⟩

/-- `LibSVMReader.LIBSVM_REPLACE_DICT` (readers.py lines 648–652):
visually-confusable characters mapped back to their ASCII originals.
Every entry is a single character. -/
def LIBSVM_REPLACE_DICT : List (Char × Char) :=
  [('\u2236', ':'), ('\uFF03', '#'), ('\u2002', ' '), ('\uA78A', '='), ('\u2223', '|')]

def replaceChar (c r : Char) (s : String) : String :=
  String.mk (s.toList.map (fun x => if x = c then r else x))

/-- The replacement loop of readers.py lines 717–719. -/
def applyReplaceDict (name : String) : String :=
  LIBSVM_REPLACE_DICT.foldl (fun n p => replaceChar p.1 p.2 n) name

/-- Python `a, b = s.split(sep)`: exactly two fields or `ValueError`. -/
def splitPair (sep : Char) (s : String) : Except PyErr (String × String) :=
  match splitOnChar sep s with
  | [a, b] => .ok (a, b)
  | _ => .error (.valueError ("could not unpack pair: " ++ s))

/-- Feature-map construction from the comment's third segment
(readers.py lines 713–720). -/
def buildFeatMap (s : String) : Except PyErr StrMap :=
  match mapME (fun pair =>
      match splitPair '=' pair with
      | .error e => .error e
      | .ok (number, name) => .ok (number, applyReplaceDict name)) (pySplitWs s) with
  | .error e => .error e
  | .ok l => .ok (buildDict l)

/-- Label-map construction from the comment's second segment
(readers.py lines 724–726). -/
def buildLabelMap (s : String) : Except PyErr StrMap :=
  match mapME (splitPair '=') (pySplitWs (pyStrip s)) with
  | .error e => .error e
  | .ok l => .ok (buildDict l)

/-- The `feat_map` / `label_map` loop variables of
`LibSVMReader._sub_read`: they are only assigned inside the
comment-handling branch, so they carry over from previous lines and
are unbound (`NameError`) before the first comment is seen.  The outer
`Option` is bound/unbound, the inner one is the Python value
(`None` or a dict). -/
structure LibSVMCarry where
  feat_map : Option (Option StrMap) := Option.none
  label_map : Option (Option StrMap) := Option.none
  deriving DecidableEq, Repr

/-- `LibSVMReader._pair_to_tuple` (readers.py lines 654–676). -/
def pairToTuple (pair : String) (feat_map : Option StrMap) :
    Except PyErr (String × SVal) :=
  match splitPair ':' pair with
  | .error e => .error e
  | .ok (name, value) =>
    match feat_map with
    | some fm =>
      match fm.lookup name with
      | some n => .ok (n, safe_floatCore (.str value) Option.none)
      | Option.none => .error (.keyError name)
    | Option.none => .ok (name, safe_floatCore (.str value) Option.none)

abbrev LibSVMTriple := String × SVal × List (String × SVal)

/-- One line of `LibSVMReader._sub_read` (readers.py lines 700–746):
match the line regex (fatal error otherwise), pull id / label map /
feature map out of the comment when present, fall back to a synthetic
`EXAMPLE_<line index>` id, resolve the label through the label map and
`safe_float`, and split the feature section into name/value pairs. -/
def libsvmParseLine (class_map : Option StrMap) (st : LibSVMCarry)
    (example_num : Nat) (line : String) :
    Except PyErr (LibSVMCarry × LibSVMTriple) :=
  match libsvmRegex (pyStrip line) with
  | Option.none =>
    .error (.valueError ("Line does not look like valid libsvm format\n" ++ line))
  | some m =>
    let commentStep : Except PyErr (LibSVMCarry × String) :=
      match m.comment with
      | some (idSeg, lmSeg, fmSeg) =>
        match (if fmSeg ≠ "" then
            match buildFeatMap fmSeg with
            | .error e => .error e
            | .ok fm => .ok (some fm)
          else .ok Option.none : Except PyErr (Option StrMap)) with
        | .error e => .error e
        | .ok fm =>
          match buildLabelMap lmSeg with
          | .error e => .error e
          | .ok lm => .ok (⟨some fm, some (some lm)⟩, pyStrip idSeg)
      | Option.none => .ok (st, "")
    match commentStep with
    | .error e => .error e
    | .ok (st1, curr_id0) =>
      let curr_id := if curr_id0 = "" then "EXAMPLE_" ++ toString example_num else curr_id0
      let class_num := m.label_num
      match st1.label_map with
      | Option.none => .error (.nameError "label_map")
      | some lmVal =>
        let classStep : Except PyErr String :=
          match lmVal with
          | some lmap =>
            if lmap.isEmpty then .ok class_num
            else
              match lmap.lookup class_num with
              | some v => .ok v
              | Option.none => .error (.keyError class_num)
          | Option.none => .ok class_num
        match classStep with
        | .error e => .error e
        | .ok class_name0 =>
          let class_name := safe_floatCore (.str class_name0) class_map
          match st1.feat_map with
          | Option.none => .error (.nameError "feat_map")
          | some fmVal =>
            match mapME (fun pair => pairToTuple pair fmVal)
                (pySplitWs (pyStrip m.features)) with
            | .error e => .error e
            | .ok pairs => .ok (st1, (curr_id, class_name, buildDict pairs))

/-- `LibSVMReader._sub_read` over all lines of the file. -/
def libsvmGo (class_map : Option StrMap) :
    LibSVMCarry → Nat → List String → Except PyErr (List LibSVMTriple)
  | _, _, [] => .ok []
  | st, n, l :: ls =>
    match libsvmParseLine class_map st n l with
    | .error e => .error e
    | .ok (st1, t) =>
      match libsvmGo class_map st1 (n + 1) ls with
      | .error e => .error e
      | .ok rest => .ok (t :: rest)

def libsvmSubRead (class_map : Option StrMap) (lines : List String) :
    Except PyErr (List LibSVMTriple) :=
  libsvmGo class_map ⟨Option.none, Option.none⟩ 0 lines

/-- The output of `Reader.read` (a `FeatureSet`): parallel ids,
labels, and the vectorized feature matrix, generic in the row type
produced by the format parser. -/
structure FeatureSetG (α : Type) where
  name : String
  ids : List PyVal
  labels : List (Option SVal)
  features : List α
  deriving DecidableEq, Repr

/-- The external vectorizer capability
(`DictVectorizer`/`FeatureHasher` `fit_transform`), modelled at its
interface: one matrix row per input feature mapping, in order. -/
def fit_transform {α : Type} (rows : List α) : List α := rows

/-- `Reader._sub_read_rows` (readers.py lines 212–288): first pass
collects ids (coerced to float when `ids_to_floats`, a fatal error on
failure) and labels and counts examples, zero examples is a fatal
error; the second pass supplies the feature mappings. -/
def subReadRows {α : Type} (path : String) (ids_to_floats : Bool)
    (parsed : Except PyErr (List (String × Option SVal × α))) :
    Except PyErr (List PyVal × List (Option SVal) × List α) :=
  match parsed with
  | .error e => .error e
  | .ok exs =>
    match mapME (fun (e : String × Option SVal × α) =>
        if ids_to_floats then
          match pyFloatOfString e.1 with
          | some q => .ok (PyVal.float q)
          | Option.none =>
            .error (.valueError ("You set ids_to_floats to true, but ID " ++ e.1 ++
              " could not be converted to float in " ++ path))
        else .ok (PyVal.str e.1)) exs with
    | .error e => .error e
    | .ok ids =>
      if exs.length = 0 then
        .error (.valueError ("No features found in possibly empty file \x27" ++ path ++ "\x27."))
      else
        .ok (ids, exs.map (fun e => e.2.1), exs.map (fun e => e.2.2))

/-- The assembly tail of `Reader.read` (readers.py lines 396–415):
vectorize the feature mappings, assert that id/label/matrix row counts
agree, fail fatally when ids are not unique, and return the
`FeatureSet`. -/
def readAssemble {α : Type} [DecidableEq α] (path : String)
    (sub : Except PyErr (List PyVal × List (Option SVal) × List α)) :
    Except PyErr (FeatureSetG α) :=
  match sub with
  | .error e => .error e
  | .ok (ids, labels, feats) =>
    let features := fit_transform feats
    if ids.length = labels.length ∧ labels.length = features.length then
      if ids.length ≠ ids.dedup.length then
        .error (.valueError ("The example IDs are not unique in " ++ path ++ "."))
      else
        .ok ⟨path, ids, labels, features⟩
    else
      .error .assertionError

theorem mapME_ok_length {α β : Type} (f : α → Except PyErr β) :
    ∀ (l : List α) (l2 : List β), mapME f l = .ok l2 → l2.length = l.length := by
  intro l
  induction l with
  | nil =>
    intro l2 h
    simp [mapME] at h
    simp [← h]
  | cons x xs ih =>
    intro l2 h
    unfold mapME at h
    cases hf : f x with
    | error e => simp [hf] at h
    | ok y =>
      rw [hf] at h
      cases hr : mapME f xs with
      | error e => simp [hr] at h
      | ok ys =>
        rw [hr] at h
        simp at h
        subst h
        simp [ih ys hr]

theorem safe_floatE_eq_core (v : PyVal) (m : Option StrMap) :
    safe_floatE v m = .ok (safe_floatCore v m) := by
  unfold safe_floatE safe_floatCore coerceText
  cases m with
  | none =>
    cases h1 : pyIntOfString (pyStr v) with
    | some n => simp [pyIntE, h1]
    | none =>
      cases h2 : pyFloatOfString (pyStr v) with
      | some q => simp [pyIntE, pyFloatE, h1, h2]
      | none => simp [pyIntE, pyFloatE, h1, h2]
  | some d =>
    cases hl : d.lookup (pyStr v) with
    | some r =>
      cases h1 : pyIntOfString r with
      | some n => simp [pyIntE, h1, hl]
      | none =>
        cases h2 : pyFloatOfString r with
        | some q => simp [pyIntE, pyFloatE, h1, h2, hl]
        | none => simp [pyIntE, pyFloatE, h1, h2, hl]
    | none =>
      cases h1 : pyIntOfString (pyStr v) with
      | some n => simp [pyIntE, h1, hl]
      | none =>
        cases h2 : pyFloatOfString (pyStr v) with
        | some q => simp [pyIntE, pyFloatE, h1, h2, hl]
        | none => simp [pyIntE, pyFloatE, h1, h2, hl]

/-- C2 counterexample: the claim asserts `safe_float(None) == 0`, but
the source stringifies its input first ("convert to text to be
Safe!"), so `None` becomes the text `"None"`, neither `int` nor
`float` parse it, and the original string is returned; the
`except TypeError: return 0` branch is unreachable. -/
theorem claim_safe_float_none_counterexample :
    safe_floatE PyVal.none Option.none = .ok (.str "None") ∧
    safe_floatCore PyVal.none Option.none ≠ .int 0 ∧
    safe_floatCore PyVal.none Option.none = .str "None" := by
  decide

/-- C2 (amended): `safe_float` with no replacement mapping returns the
integer 3 for `"3"`, the float 3.5 for `"3.5"`, the original string
for `"abc"`; a null input does not raise but yields the string
`"None"` (its text form), not the integer zero. -/
theorem claim_safe_float_examples_amended :
    safe_floatCore (.str "3") Option.none = .int 3 ∧
    safe_floatCore (.str "3.5") Option.none = .float (mkRat 7 2) ∧
    safe_floatCore (.str "abc") Option.none = .str "abc" ∧
    safe_floatE PyVal.none Option.none = .ok (.str "None") ∧
    safe_floatCore PyVal.none Option.none = .str "None" := by
  decide

/-- C3 (code bug): an unrecognized extension does raise a fatal error
naming the attempted path, and every extension in `EXT_TO_READER`
(including `.libsvm`) dispatches to its parser — but the error message
lists only `.arff, .csv, .jsonlines, .megam, .ndj, .tsv` and omits the
supported `.libsvm`, so it does not name the full allowed set as the
claim states. -/
theorem claim_for_path_message_bug :
    for_path (.path "foo.xyz") {} =
      .error (.valueError "Example files must be in either .arff, .csv, .jsonlines, .megam, .ndj, or .tsv format. You specified: foo.xyz") ∧
    strContains "Example files must be in either .arff, .csv, .jsonlines, .megam, .ndj, or .tsv format. You specified: foo.xyz" ".libsvm" = false ∧
    strContains "Example files must be in either .arff, .csv, .jsonlines, .megam, .ndj, or .tsv format. You specified: foo.xyz" ".csv" = true ∧
    strContains "Example files must be in either .arff, .csv, .jsonlines, .megam, .ndj, or .tsv format. You specified: foo.xyz" "foo.xyz" = true ∧
    EXT_TO_READER.lookup ".libsvm" = some ReaderKind.libsvm ∧
    for_path (.path "data.libsvm") {} = .ok ⟨.libsvm, {}⟩ ∧
    for_path (.path "data.csv") {} = .ok ⟨.csv, {}⟩ ∧
    for_path (.path "DATA.TSV") {} = .ok ⟨.tsv, {}⟩ := by
  decide

/-- C9: a list input to `Reader.for_path` is answered with
`DictListReader(path_or_list)` — no keyword argument is forwarded —
so the resulting reader always carries the default configuration,
whatever options were passed. -/
theorem claim_for_path_list_defaults :
    (∀ (cfg : ReaderConfig) (l : List Record),
      for_path (.list l) cfg = .ok ⟨.dictList, {}⟩) ∧
    (∀ (cfg : ReaderConfig) (l : List Record),
      for_path (.list l) cfg = for_path (.list l) {}) := by
  exact ⟨fun _ _ => rfl, fun _ _ => rfl⟩

/-- C10: `safe_float` is total — for every modelled input value and
replacement mapping it returns a value (an `int`, `float` or `str`)
and never propagates an exception, because the input is converted to
its text form before any numeric parse is attempted (the result only
depends on that text form). -/
theorem claim_safe_float_total :
    ∀ (v : PyVal) (m : Option StrMap),
      safe_floatE v m = .ok (safe_floatCore v m) ∧
      safe_floatE v m = safe_floatE (.str (pyStr v)) m :=
  fun v m => ⟨safe_floatE_eq_core v m, rfl⟩

/-- C5: the LibSVM trailing comment supplies the example ID, the
code-to-label map and the code-to-feature map: the claim's line yields
identifier `"ex1"`, label `"pos"` and features `{"f1": 2.0,
"f2": 3.0}`; and the confusable-punctuation table
(`LIBSVM_REPLACE_DICT`) is substituted back to ASCII inside feature
names before use. -/
theorem claim_libsvm_comment_metadata :
    libsvmParseLine Option.none ⟨Option.none, Option.none⟩ 0
        "1 1:2.0 2:3.0 # ex1 | 1=pos | 1=f1 2=f2" =
      .ok (⟨some (some [("1", "f1"), ("2", "f2")]), some (some [("1", "pos")])⟩,
        ("ex1", .str "pos", [("f1", .float 2), ("f2", .float 3)])) ∧
    applyReplaceDict "A∶B＃C꞊D∣E" = "A:B#C=D|E" ∧
    libsvmParseLine Option.none ⟨Option.none, Option.none⟩ 0
        "1 1:2.0 # ex2 | 1=pos | 1=A∶B＃C꞊D∣E" =
      .ok (⟨some (some [("1", "A:B#C=D|E")]), some (some [("1", "pos")])⟩,
        ("ex2", .str "pos", [("A:B#C=D|E", .float 2)])) := by
  decide

/-- C4: the MegaM token rules — an odd token count greater than one
makes token 0 the label and the rest flattened feature/value pairs, an
even count means no label, a single token is a bare label — and the
claim's two-instance input yields identifiers `["ex1", "EXAMPLE_1"]`,
labels `[1, None]` and feature mappings
`[{"f1": 2.0, "f2": 3.0}, {"f1": 1.0}]`. -/
theorem claim_megam_token_rules (cm : Option StrMap) (toks : List String)
    (h1 : toks.length % 2 = 1) (h2 : 1 < toks.length) :
    megamParseTokens cm toks =
      (some (safe_floatCore (.str (toks.headD "")) cm), toks.tail) ∧
    (∀ ts : List String, ts.length % 2 = 0 →
      megamParseTokens cm ts = (Option.none, ts)) ∧
    (∀ ts : List String, ts.length = 1 →
      megamParseTokens cm ts = (some (safe_floatCore (.str (ts.headD "")) cm), [])) ∧
    megamSubRead Option.none "example.megam" ["# ex1", "1 f1 2.0 f2 3.0", "f1 1.0"] =
      .ok [("ex1", some (.int 1), [("f1", .float 2), ("f2", .float 3)]),
           ("EXAMPLE_1", Option.none, [("f1", .float 1)])] := by
  refine ⟨?_, ?_, ?_, by decide⟩
  · unfold megamParseTokens
    rw [if_neg (by omega), if_pos h1]
  · intro ts h
    unfold megamParseTokens
    rw [if_neg (by omega), if_neg (by omega)]
  · intro ts h
    unfold megamParseTokens
    rw [if_pos h]

theorem claim_megam_token_rules_witness :
    megamParseTokens Option.none ["1", "f1", "2.0"] =
      (some (safe_floatCore (.str (["1", "f1", "2.0"].headD "")) Option.none),
        ["1", "f1", "2.0"].tail) ∧
    (∀ ts : List String, ts.length % 2 = 0 →
      megamParseTokens Option.none ts = (Option.none, ts)) ∧
    (∀ ts : List String, ts.length = 1 →
      megamParseTokens Option.none ts =
        (some (safe_floatCore (.str (ts.headD "")) Option.none), [])) ∧
    megamSubRead Option.none "example.megam" ["# ex1", "1 f1 2.0 f2 3.0", "f1 1.0"] =
      .ok [("ex1", some (.int 1), [("f1", .float 2), ("f2", .float 3)]),
           ("EXAMPLE_1", Option.none, [("f1", .float 1)])] :=
  claim_megam_token_rules Option.none ["1", "f1", "2.0"] (by decide) (by decide)

/-- C8: `safe_float` substitutes the class-map value before numeric
coercion when the token is a key (so `"pos"` under
`{"pos": "1", "neg": "0"}` coerces to the integer 1, both directly and
through the table-reader label path), while a token not in the map is
passed through unchanged to coercion and only triggers the warning
diagnostic. -/
theorem claim_class_map_behavior (t : String) (m : StrMap) (r : String)
    (hsome : m.lookup t = some r) :
    safe_floatCore (.str t) (some m) = coerceText r ∧
    (∀ (u : String) (d : StrMap), d.lookup u = Option.none →
      safe_floatCore (.str u) (some d) = safe_floatCore (.str u) Option.none ∧
      safe_float_warns (.str u) (some d) = true) ∧
    safe_floatCore (.str "pos") (some [("pos", "1"), ("neg", "0")]) = .int 1 ∧
    safe_float_warns (.str "pos") (some [("pos", "1"), ("neg", "0")]) = false ∧
    safe_floatCore (.str "neutral") (some [("pos", "1"), ("neg", "0")]) = .str "neutral" ∧
    safe_float_warns (.str "neutral") (some [("pos", "1"), ("neg", "0")]) = true ∧
    csvSubRead "t.csv" { class_map := some [("pos", "1"), ("neg", "0")] }
        ⟨["id", "y"], [[.str "ex", .str "pos"]]⟩ =
      .ok ([.str "ex"], [some (.int 1)], [[]]) := by
  refine ⟨?_, ?_, by decide, by decide, by decide, by decide, by decide⟩
  · unfold safe_floatCore
    simp only [pyStr, hsome]
  · intro u d h
    constructor
    · unfold safe_floatCore
      simp only [pyStr, h]
    · unfold safe_float_warns
      simp only [pyStr, h, Option.isNone_none]

theorem claim_class_map_behavior_witness :
    safe_floatCore (.str "pos") (some [("pos", "1"), ("neg", "0")]) = coerceText "1" ∧
    (∀ (u : String) (d : StrMap), d.lookup u = Option.none →
      safe_floatCore (.str u) (some d) = safe_floatCore (.str u) Option.none ∧
      safe_float_warns (.str u) (some d) = true) ∧
    safe_floatCore (.str "pos") (some [("pos", "1"), ("neg", "0")]) = .int 1 ∧
    safe_float_warns (.str "pos") (some [("pos", "1"), ("neg", "0")]) = false ∧
    safe_floatCore (.str "neutral") (some [("pos", "1"), ("neg", "0")]) = .str "neutral" ∧
    safe_float_warns (.str "neutral") (some [("pos", "1"), ("neg", "0")]) = true ∧
    csvSubRead "t.csv" { class_map := some [("pos", "1"), ("neg", "0")] }
        ⟨["id", "y"], [[.str "ex", .str "pos"]]⟩ =
      .ok ([.str "ex"], [some (.int 1)], [[]]) :=
  claim_class_map_behavior "pos" [("pos", "1"), ("neg", "0")] "1" (by decide)

/-- C7: a source yielding zero examples is a fatal error and nothing
is returned — an empty in-memory record list, a zero-row table and a
streamed file from which no example was parsed all fail with the
empty-input `ValueError`, and `read` propagates it. -/
theorem claim_empty_input_error :
    (∀ (path : String) (cfg : ReaderConfig),
      dictListSubRead path cfg [] =
        .error (.valueError ("No features found in possibly empty file \x27" ++ path ++ "\x27."))) ∧
    (∀ (path : String) (its : Bool) (cm : Option StrMap)
        (idc lc : Option String) (cols : List String),
      parseDataframe path its cm ⟨cols, []⟩ idc lc Option.none =
        .error (.valueError ("No features found in possibly empty file \x27" ++ path ++ "\x27."))) ∧
    (∀ (path : String) (b : Bool),
      @subReadRows (List (String × SVal)) path b (.ok []) =
        .error (.valueError ("No features found in possibly empty file \x27" ++ path ++ "\x27."))) ∧
    (∀ (path : String) (b : Bool),
      readAssemble path (@subReadRows (List (String × SVal)) path b (.ok [])) =
        .error (.valueError ("No features found in possibly empty file \x27" ++ path ++ "\x27."))) := by
  refine ⟨fun path cfg => rfl, fun path its cm idc lc cols => rfl,
    fun path b => rfl, fun path b => rfl⟩

/-- C6: after a full parse, duplicated example identifiers make `read`
fail with the fatal duplicate-id `ValueError` naming the source, and
nothing is returned; in particular a 2-row table whose rows both carry
id `"A"` fails this way. -/
theorem claim_duplicate_id_error {α : Type} [DecidableEq α] (path : String)
    (ids : List PyVal) (labels : List (Option SVal)) (feats : List α)
    (h1 : ids.length = labels.length) (h2 : labels.length = feats.length)
    (hdup : ids.dedup.length ≠ ids.length) :
    readAssemble path (.ok (ids, labels, feats)) =
      .error (.valueError ("The example IDs are not unique in " ++ path ++ ".")) ∧
    readAssemble "test.csv" (csvSubRead "test.csv" {}
        ⟨["id", "y", "f"], [[.str "A", .str "1", .int 1], [.str "A", .str "2", .int 2]]⟩) =
      .error (.valueError "The example IDs are not unique in test.csv.") := by
  constructor
  · simp only [readAssemble, fit_transform]
    rw [if_pos ⟨h1, h2⟩, if_pos (Ne.symm hdup)]
  · decide

theorem claim_duplicate_id_error_witness :
    readAssemble "w.csv" (.ok ([PyVal.str "A", PyVal.str "A"],
        [some (SVal.int 1), some (SVal.int 2)],
        ([[("f", PyVal.int 1)], [("f", PyVal.int 2)]] : List FeatRow))) =
      .error (.valueError ("The example IDs are not unique in " ++ "w.csv" ++ ".")) ∧
    readAssemble "test.csv" (csvSubRead "test.csv" {}
        ⟨["id", "y", "f"], [[.str "A", .str "1", .int 1], [.str "A", .str "2", .int 2]]⟩) =
      .error (.valueError "The example IDs are not unique in test.csv.") :=
  claim_duplicate_id_error "w.csv" [PyVal.str "A", PyVal.str "A"]
    [some (SVal.int 1), some (SVal.int 2)] [[("f", PyVal.int 1)], [("f", PyVal.int 2)]]
    (by decide) (by decide) (by decide)

theorem DataFrame.col_length_of_idx (df : DataFrame) (c : String) (i : Nat)
    (h : df.colIdx c = some i) : (df.col c).length = df.rows.length := by
  unfold DataFrame.col
  rw [h]
  simp

theorem DataFrame.dropCol_rows_length (df : DataFrame) (c : String) :
    (df.dropCol c).rows.length = df.rows.length := by
  unfold DataFrame.dropCol
  cases h : df.colIdx c <;> simp

theorem DataFrame.records_length (df : DataFrame) :
    df.records.length = df.rows.length := by
  unfold DataFrame.records
  simp

theorem syntheticIds_length (n : Nat) : (syntheticIds n).length = n := by
  unfold syntheticIds
  simp

theorem extractIds_ok (its : Bool) (df : DataFrame) (idc : Option String)
    (df1 : DataFrame) (ids : List PyVal)
    (h : extractIds its df idc = .ok (df1, ids)) :
    ids.length = df.rows.length ∧ df1.rows.length = df.rows.length := by
  unfold extractIds at h
  cases idc with
  | none =>
    simp only [Except.ok.injEq, Prod.mk.injEq] at h
    obtain ⟨h1, h2⟩ := h
    subst h1; subst h2
    exact ⟨syntheticIds_length _, rfl⟩
  | some c =>
    dsimp only at h
    by_cases hc : df.hasCol c
    · rw [if_pos hc] at h
      unfold DataFrame.hasCol at hc
      cases hidx : df.colIdx c with
      | none => rw [hidx] at hc; simp at hc
      | some i =>
        by_cases hits : its
        · rw [if_pos hits] at h
          cases hm : mapME pandasAstypeFloat (df.col c) with
          | error e => rw [hm] at h; simp at h
          | ok fl =>
            rw [hm] at h
            simp only [Except.ok.injEq, Prod.mk.injEq] at h
            obtain ⟨h1, h2⟩ := h
            subst h1; subst h2
            constructor
            · rw [List.length_map, mapME_ok_length _ _ _ hm,
                DataFrame.col_length_of_idx df c i hidx]
            · exact DataFrame.dropCol_rows_length df c
        · rw [if_neg hits] at h
          simp only [Except.ok.injEq, Prod.mk.injEq] at h
          obtain ⟨h1, h2⟩ := h
          subst h1; subst h2
          exact ⟨DataFrame.col_length_of_idx df c i hidx,
            DataFrame.dropCol_rows_length df c⟩
    · rw [if_neg hc] at h
      simp only [Except.ok.injEq, Prod.mk.injEq] at h
      obtain ⟨h1, h2⟩ := h
      subst h1; subst h2
      exact ⟨syntheticIds_length _, rfl⟩

theorem extractLabels_spec (cm : Option StrMap) (df : DataFrame)
    (lc : Option String) :
    (extractLabels cm df lc).2.length = df.rows.length ∧
    (extractLabels cm df lc).1.rows.length = df.rows.length := by
  unfold extractLabels
  cases lc with
  | none => simp
  | some c =>
    dsimp only
    by_cases hc : df.hasCol c
    · rw [if_pos hc]
      unfold DataFrame.hasCol at hc
      cases hidx : df.colIdx c with
      | none => rw [hidx] at hc; simp at hc
      | some i =>
        refine ⟨?_, DataFrame.dropCol_rows_length df c⟩
        simp only [List.length_map]
        exact DataFrame.col_length_of_idx df c i hidx
    · rw [if_neg hc]
      simp

/-- C1: for a sub-read producing N examples, `read` returns a
`FeatureSet` with N identifiers, N labels and N feature-matrix rows;
the three-way count equality is checked (count disagreement is the
assertion error) before the result is returned; and both ingestion
strategies — streaming (`_sub_read_rows`) and table
(`_parse_dataframe`) — produce one id, one label and one feature
mapping per example/row. -/
theorem claim_read_counts {α : Type} [DecidableEq α] (path : String) (N : Nat)
    (ids : List PyVal) (labels : List (Option SVal)) (feats : List α)
    (fs : FeatureSetG α)
    (hok : readAssemble path (.ok (ids, labels, feats)) = .ok fs)
    (hn : ids.length = N) :
    (fs.ids.length = N ∧ fs.labels.length = N ∧ fs.features.length = N) ∧
    (∀ (ids2 : List PyVal) (labels2 : List (Option SVal)) (feats2 : List α),
      ¬(ids2.length = labels2.length ∧ labels2.length = feats2.length) →
      readAssemble path (.ok (ids2, labels2, feats2)) = .error .assertionError) ∧
    (∀ (β : Type) (exs : List (String × Option SVal × β)) (b : Bool)
        (ids3 : List PyVal) (labels3 : List (Option SVal)) (feats3 : List β),
      subReadRows path b (.ok exs) = .ok (ids3, labels3, feats3) →
      ids3.length = exs.length ∧ labels3.length = exs.length ∧
        feats3.length = exs.length) ∧
    (∀ (df : DataFrame) (its : Bool) (cm : Option StrMap)
        (idc lc : Option String) (ids4 : List PyVal)
        (labels4 : List (Option SVal)) (feats4 : List FeatRow),
      parseDataframe path its cm df idc lc Option.none = .ok (ids4, labels4, feats4) →
      ids4.length = df.rows.length ∧ labels4.length = df.rows.length ∧
        feats4.length = df.rows.length) := by
  refine ⟨?_, ?_, ?_, ?_⟩
  · simp only [readAssemble, fit_transform] at hok
    by_cases hc : ids.length = labels.length ∧ labels.length = feats.length
    · rw [if_pos hc] at hok
      by_cases hd : ids.length ≠ ids.dedup.length
      · rw [if_pos hd] at hok
        simp at hok
      · rw [if_neg hd] at hok
        simp only [Except.ok.injEq] at hok
        subst hok
        exact ⟨hn, by rw [← hc.1, hn], by rw [← hc.2, ← hc.1, hn]⟩
    · rw [if_neg hc] at hok
      simp at hok
  · intro ids2 labels2 feats2 hne
    simp only [readAssemble, fit_transform]
    rw [if_neg hne]
  · intro β exs b ids3 labels3 feats3 hsub
    unfold subReadRows at hsub
    split at hsub
    · simp at hsub
    · rename_i idsm hm
      split at hsub
      · simp at hsub
      · rename_i idsv hv
        split at hsub
        · simp at hsub
        · simp only [Except.ok.injEq, Prod.mk.injEq] at hsub
          obtain ⟨hi, hl, hf⟩ := hsub
          simp only [Except.ok.injEq] at hm
          subst hm
          subst hi; subst hl; subst hf
          exact ⟨mapME_ok_length _ _ _ hv, by simp, by simp⟩
  · intro df its cm idc lc ids4 labels4 feats4 hpd
    unfold parseDataframe at hpd
    split at hpd
    · simp at hpd
    · split at hpd
      · simp at hpd
      · rename_i df1 ids1 hids
        simp only [Except.ok.injEq, Prod.mk.injEq] at hpd
        obtain ⟨h1, h2, h3⟩ := hpd
        subst h1; subst h2; subst h3
        have hids2 := extractIds_ok its df idc df1 ids1 hids
        have hlab := extractLabels_spec cm df1 lc
        refine ⟨hids2.1, ?_, ?_⟩
        · rw [hlab.1, hids2.2]
        · simp only [Option.getD]
          rw [DataFrame.records_length, hlab.2, hids2.2]

theorem claim_read_counts_witness :
    ((FeatureSetG.mk "w.megam" [PyVal.str "a"] [some (SVal.int 1)]
        ([[("f", SVal.int 2)]] : List (List (String × SVal)))).ids.length = 1 ∧
     (FeatureSetG.mk "w.megam" [PyVal.str "a"] [some (SVal.int 1)]
        ([[("f", SVal.int 2)]] : List (List (String × SVal)))).labels.length = 1 ∧
     (FeatureSetG.mk "w.megam" [PyVal.str "a"] [some (SVal.int 1)]
        ([[("f", SVal.int 2)]] : List (List (String × SVal)))).features.length = 1) ∧
    (∀ (ids2 : List PyVal) (labels2 : List (Option SVal))
        (feats2 : List (List (String × SVal))),
      ¬(ids2.length = labels2.length ∧ labels2.length = feats2.length) →
      readAssemble "w.megam" (.ok (ids2, labels2, feats2)) = .error .assertionError) ∧
    (∀ (β : Type) (exs : List (String × Option SVal × β)) (b : Bool)
        (ids3 : List PyVal) (labels3 : List (Option SVal)) (feats3 : List β),
      subReadRows "w.megam" b (.ok exs) = .ok (ids3, labels3, feats3) →
      ids3.length = exs.length ∧ labels3.length = exs.length ∧
        feats3.length = exs.length) ∧
    (∀ (df : DataFrame) (its : Bool) (cm : Option StrMap)
        (idc lc : Option String) (ids4 : List PyVal)
        (labels4 : List (Option SVal)) (feats4 : List FeatRow),
      parseDataframe "w.megam" its cm df idc lc Option.none = .ok (ids4, labels4, feats4) →
      ids4.length = df.rows.length ∧ labels4.length = df.rows.length ∧
        feats4.length = df.rows.length) :=
  claim_read_counts "w.megam" 1 [PyVal.str "a"] [some (SVal.int 1)]
    [[("f", SVal.int 2)]]
    (FeatureSetG.mk "w.megam" [PyVal.str "a"] [some (SVal.int 1)] [[("f", SVal.int 2)]])
    rfl rfl
